import Mathlib

/-!
Shallow embedding of pyVisualCrossingUK (src/pyVisualCrossing/api.py and
src/pyVisualCrossing/const.py), together with theorems settling the
specification claims about the Transport Adapter, Response Mapper and
Client Facade.

Modelling conventions:
* Python `dict` values coming from `json.loads` are modelled by `JVal`;
  a JSON object is an association list `JObj`.
* `d.get(k, None)` is `dget d k : Option JVal`; `d[k]` is
  `dindex d k : Except PyErr JVal` (KeyError when absent).
* Python exceptions are the error side of `Except PyErr`.
* `datetime.datetime` values are `PyDatetime`: a wall-clock instant in
  seconds together with an optional tzinfo (`none` = naive).  The host's
  local-time offset from UTC (in seconds) is an explicit parameter
  `tzOff`, and the wall clock "now" is an explicit epoch parameter
  `nowEpoch`, so every run of the mapper is a pure function of both.
-/

/-- Python exceptions that the embedded code can raise. -/
inductive PyErr where
  | keyError : String → PyErr
  | typeError : PyErr
  | jsonDecodeError : PyErr
  | urlError : String → PyErr
  | aiohttpClientError : String → PyErr
  | runtimeSessionClosed : PyErr
  | visualCrossingException : String → PyErr
  | visualCrossingBadRequest : String → PyErr
  | visualCrossingUnauthorized : String → PyErr
  | visualCrossingTooManyRequests : String → PyErr
  | visualCrossingInternalServerError : String → PyErr
deriving DecidableEq, Repr

/-- JSON values as returned by `json.loads`. -/
inductive JVal where
  | num : Int → JVal
  | str : String → JVal
  | bool : Bool → JVal
  | null : JVal
  | arr : List JVal → JVal
  | obj : List (String × JVal) → JVal
deriving Repr

/-- A JSON object: a Python dict from string keys to JSON values. -/
abbrev JObj := List (String × JVal)

/-- Python `d.get(k, None)`: first binding of `k`, or `none`. -/
def dget (d : JObj) (k : String) : Option JVal :=
  (d.find? (fun p => p.1 == k)).map Prod.snd

/-- Python `d[k]`: raises `KeyError` when the key is absent. -/
def dindex (d : JObj) (k : String) : Except PyErr JVal :=
  match dget d k with
  | some v => .ok v
  | none => .error (.keyError k)

/-- Using a JSON value as a dict (raises `TypeError` otherwise). -/
def asObj : JVal → Except PyErr JObj
  | .obj d => .ok d
  | _ => .error .typeError

/-- Using a JSON value as a list (raises `TypeError` otherwise). -/
def asArr : JVal → Except PyErr (List JVal)
  | .arr xs => .ok xs
  | _ => .error .typeError

/-- Using a JSON value as a number (raises `TypeError` otherwise). -/
def asInt : JVal → Except PyErr Int
  | .num n => .ok n
  | _ => .error .typeError

/-- A `datetime.datetime`: wall-clock seconds plus optional tzinfo.
`tzinfo = none` is a naive datetime; `tzinfo = some 0` is UTC. -/
structure PyDatetime where
  seconds : Int
  tzinfo : Option Int
deriving DecidableEq, Repr

/-- `datetime.datetime.utcfromtimestamp(e)`: UTC wall clock, naive. -/
def datetime_utcfromtimestamp (e : Int) : PyDatetime := ⟨e, none⟩

/-- `d.replace(tzinfo=datetime.timezone.utc)`. -/
def PyDatetime.replaceTzinfoUTC (d : PyDatetime) : PyDatetime := ⟨d.seconds, some 0⟩

/-- `datetime.datetime.fromtimestamp(e)`: local wall clock, naive;
`tzOff` is the host timezone's offset from UTC in seconds. -/
def datetime_fromtimestamp (tzOff e : Int) : PyDatetime := ⟨e + tzOff, none⟩

/-- `datetime.datetime.now()`: local wall clock of the instant
`nowEpoch`, naive. -/
def datetime_now (tzOff nowEpoch : Int) : PyDatetime := ⟨nowEpoch + tzOff, none⟩

/-- Python `a > b` on two naive datetimes: wall-clock comparison. -/
def PyDatetime.gt (a b : PyDatetime) : Bool := b.seconds < a.seconds

/-- Whether a datetime is a timezone-aware UTC instant. -/
def PyDatetime.isAwareUTC (d : PyDatetime) : Prop := d.tzinfo = some 0

instance (d : PyDatetime) : Decidable d.isAwareUTC := by
  unfold PyDatetime.isAwareUTC; infer_instance

/-- Modelled from the spec: the `ForecastDailyData` record of the
missing `data.py` module (§3 of the spec). -/
structure ForecastDailyData where
  datetime : PyDatetime
  temperature : Option JVal
  temp_low : Option JVal
  apparent_temperature : Option JVal
  condition : Option JVal
  icon : Option JVal
  cloudcover : Option JVal
  dew_point : Option JVal
  humidity : Option JVal
  precipitation_probability : Option JVal
  precipitation : Option JVal
  pressure : Option JVal
  wind_bearing : Option JVal
  wind_speed : Option JVal
  wind_gust_speed : Option JVal
  uv_index : Option JVal
deriving Repr

/-- Modelled from the spec: the `ForecastHourlyData` record of the
missing `data.py` module (§3 of the spec). -/
structure ForecastHourlyData where
  datetime : PyDatetime
  temperature : Option JVal
  apparent_temperature : Option JVal
  condition : Option JVal
  cloudcover : Option JVal
  icon : Option JVal
  dew_point : Option JVal
  humidity : Option JVal
  precipitation : Option JVal
  precipitation_probability : Option JVal
  pressure : Option JVal
  wind_bearing : Option JVal
  wind_gust_speed : Option JVal
  wind_speed : Option JVal
  uv_index : Option JVal
deriving Repr

/-- Modelled from the spec: the `ForecastData` record of the missing
`data.py` module (§3 of the spec): current conditions plus the two
forecast sequences, attached after construction. -/
structure ForecastData where
  datetime : PyDatetime
  apparent_temperature : Option JVal
  condition : Option JVal
  cloudcover : Option JVal
  dew_point : Option JVal
  humidity : Option JVal
  icon : Option JVal
  precipitation : Option JVal
  precipitation_probability : Option JVal
  pressure : Option JVal
  solarradiation : Option JVal
  temperature : Option JVal
  visibility : Option JVal
  uv_index : Option JVal
  wind_bearing : Option JVal
  wind_gust_speed : Option JVal
  wind_speed : Option JVal
  location_name : Option JVal
  description : Option JVal
  forecast_daily : List ForecastDailyData
  forecast_hourly : List ForecastHourlyData
deriving Repr

/-- `_get_current_data` (api.py lines 302-351): read `currentConditions`,
convert its epoch to an aware UTC instant, look every optional field up
with a default of `None`, and build the current-conditions record with
empty forecast sequences (two-phase build).  `buildCurrentData` is the
`ForecastData(...)` constructor call of api.py lines 329-349. -/
def buildCurrentData (api_result item : JObj) (valid_time : PyDatetime) : ForecastData :=
  { datetime := valid_time
    apparent_temperature := dget item "feelslike"
    condition := dget item "conditions"
    cloudcover := dget item "cloudcover"
    dew_point := dget item "dew"
    humidity := dget item "humidity"
    icon := dget item "icon"
    precipitation := dget item "precip"
    precipitation_probability := dget item "precipprob"
    pressure := dget item "pressure"
    solarradiation := dget item "solarradiation"
    temperature := dget item "temp"
    visibility := dget item "visibility"
    uv_index := dget item "uvindex"
    wind_bearing := dget item "winddir"
    wind_gust_speed := dget item "windgust"
    wind_speed := dget item "windspeed"
    location_name := dget api_result "address"
    description := dget api_result "description"
    forecast_daily := []
    forecast_hourly := [] }

def _get_current_data (api_result : JObj) : Except PyErr ForecastData :=
  match dindex api_result "currentConditions" with
  | .error e => .error e
  | .ok itemV =>
    match asObj itemV with
    | .error e => .error e
    | .ok item =>
      match dindex item "datetimeEpoch" with
      | .error e => .error e
      | .ok epochV =>
        match asInt epochV with
        | .error e => .error e
        | .ok epoch =>
          .ok (buildCurrentData api_result item
            ((datetime_utcfromtimestamp epoch).replaceTzinfoUTC))

/-- The `ForecastDailyData` built for one entry of `days`
(api.py lines 233-250). -/
def mkDailyData (valid_time : PyDatetime) (item : JObj) : ForecastDailyData :=
  { datetime := valid_time
    temperature := dget item "tempmax"
    temp_low := dget item "tempmin"
    apparent_temperature := dget item "feelslike"
    condition := dget item "conditions"
    icon := dget item "icon"
    cloudcover := dget item "cloudcover"
    dew_point := dget item "dew"
    humidity := dget item "humidity"
    precipitation_probability := dget item "precipprob"
    precipitation := dget item "precip"
    pressure := dget item "pressure"
    wind_bearing := dget item "winddir"
    wind_speed := dget item "windspeed"
    wind_gust_speed := dget item "windgust"
    uv_index := dget item "uvindex" }

/-- The `ForecastHourlyData` built for one entry of a day's `hours`
(api.py lines 276-292). -/
def mkHourlyData (valid_time : PyDatetime) (row : JObj) : ForecastHourlyData :=
  { datetime := valid_time
    temperature := dget row "temp"
    apparent_temperature := dget row "feelslike"
    condition := dget row "conditions"
    cloudcover := dget row "cloudcover"
    icon := dget row "icon"
    dew_point := dget row "dew"
    humidity := dget row "humidity"
    precipitation := dget row "precip"
    precipitation_probability := dget row "precipprob"
    pressure := dget row "pressure"
    wind_bearing := dget row "winddir"
    wind_gust_speed := dget row "windgust"
    wind_speed := dget row "windspeed"
    uv_index := dget row "uvindex" }

/-- The inner hours loop of `_fetch_data` (api.py lines 254-293): each
hour's timestamp is built with the naive local-time conversion
`datetime.datetime.fromtimestamp` and the hour is appended only when
that timestamp is strictly after the naive local `now`. -/
def mapHourRows (tzOff nowEpoch : Int) : List JVal → Except PyErr (List ForecastHourlyData)
  | [] => .ok []
  | rowV :: rest =>
    match asObj rowV with
    | .error e => .error e
    | .ok row =>
      match dindex row "datetimeEpoch" with
      | .error e => .error e
      | .ok epochV =>
        match asInt epochV with
        | .error e => .error e
        | .ok epoch =>
          let now := datetime_now tzOff nowEpoch
          let valid_time := datetime_fromtimestamp tzOff epoch
          match mapHourRows tzOff nowEpoch rest with
          | .error e => .error e
          | .ok hs =>
            .ok (if valid_time.gt now then mkHourlyData valid_time row :: hs else hs)

/-- The outer days loop of `_fetch_data` (api.py lines 213-296): one
daily record per entry of `days` (epoch converted to an aware UTC
instant), and the filtered hourly records of every day concatenated in
day-major order. -/
def mapDays (tzOff nowEpoch : Int) : List JVal → Except PyErr (List ForecastDailyData × List ForecastHourlyData)
  | [] => .ok ([], [])
  | itemV :: rest =>
    match asObj itemV with
    | .error e => .error e
    | .ok item =>
      match dindex item "datetimeEpoch" with
      | .error e => .error e
      | .ok epochV =>
        match asInt epochV with
        | .error e => .error e
        | .ok epoch =>
          let valid_time := (datetime_utcfromtimestamp epoch).replaceTzinfoUTC
          let day_data := mkDailyData valid_time item
          match dindex item "hours" with
          | .error e => .error e
          | .ok hoursV =>
            match asArr hoursV with
            | .error e => .error e
            | .ok rows =>
              match mapHourRows tzOff nowEpoch rows with
              | .error e => .error e
              | .ok hs =>
                match mapDays tzOff nowEpoch rest with
                | .error e => .error e
                | .ok (ds, hs2) => .ok (day_data :: ds, hs ++ hs2)

/-- `_fetch_data` (api.py lines 199-298): `None` input yields `None`;
otherwise build the current-conditions record, then the daily and
hourly sequences, and attach the sequences to the record. -/
def _fetch_data (tzOff nowEpoch : Int) : Option JVal → Except PyErr (Option ForecastData)
  | none => .ok none
  | some v =>
    match asObj v with
    | .error e => .error e
    | .ok d =>
      match _get_current_data d with
      | .error e => .error e
      | .ok weather_data =>
        match dindex d "days" with
        | .error e => .error e
        | .ok daysV =>
          match asArr daysV with
          | .error e => .error e
          | .ok items =>
            match mapDays tzOff nowEpoch items with
            | .error e => .error e
            | .ok (fd, fh) =>
              .ok (some { weather_data with forecast_daily := fd, forecast_hourly := fh })

/-- `VISUALCROSSING_BASE_URL` (const.py line 8). -/
def VISUALCROSSING_BASE_URL : String :=
  "https://weather.visualcrossing.com/VisualCrossingWebServices/rest/services/timeline/"

/-- The request URL f-string shared by both adapter variants
(api.py lines 74 and 107).  Latitude and longitude pass through as the
strings they interpolate to. -/
def buildApiUrl (latitude longitude : String) (days : Int) (api_key language : String) : String :=
  VISUALCROSSING_BASE_URL ++ latitude ++ "," ++ longitude ++ "/today/next" ++
    toString days ++ "days?unitGroup=metric&key=" ++ api_key ++
    "&contentType=json&iconSet=icons2&lang=" ++ language

/-- Outcome of a blocking `urllib.request.urlopen` round-trip: a 2xx
response whose body parses to `some` JSON value (`none` = non-JSON
body, so `json.loads` raises), an `HTTPError` with its status code, or
a transport-level `URLError` (DNS, connection refused). -/
inductive HttpOutcome where
  | success : Option JVal → HttpOutcome
  | httpError : Nat → HttpOutcome
  | urlError : String → HttpOutcome
deriving Repr

/-- `VisualCrossingAPI.fetch_data` (api.py lines 70-101), the blocking
variant, over a network oracle `http` from request URL to outcome:
only `HTTPError` is caught, and only the four listed codes re-raise a
named error; any other `HTTPError` code falls through the chain to the
final `return None`. -/
def VisualCrossingAPI.fetch_data (http : String → HttpOutcome)
    (api_key latitude longitude : String) (days : Int) (language : String) :
    Except PyErr (Option JVal) :=
  let api_url := buildApiUrl latitude longitude days api_key language
  match http api_url with
  | .success (some json_data) => .ok (some json_data)
  | .success none => .error .jsonDecodeError
  | .httpError code =>
    if code = 400 then
      .error (.visualCrossingBadRequest
        "400 BAD_REQUEST Requests is invalid in some way (invalid dates, bad location parameter etc).")
    else if code = 401 then
      .error (.visualCrossingUnauthorized
        "401 UNAUTHORIZED The API key is incorrect or your account status is inactive or disabled.")
    else if code = 429 then
      .error (.visualCrossingTooManyRequests
        "429 TOO_MANY_REQUESTS Too many daily request for the current plan.")
    else if code = 500 then
      .error (.visualCrossingInternalServerError
        "500 INTERNAL_SERVER_ERROR Visual Crossing servers encounter an unexpected error.")
    else .ok none
  | .urlError reason => .error (.urlError reason)

/-- An `aiohttp.ClientSession`: whether the adapter itself created it,
and whether it has been closed. -/
structure Session where
  createdByAdapter : Bool
  closed : Bool
deriving DecidableEq, Repr

/-- Outcome of a non-blocking `session.get` round-trip: a response with
status code and body (parsed to `some` JSON value, `none` = non-JSON
text), or a client connection error (DNS, connection refused). -/
inductive AioOutcome where
  | response : Nat → Option JVal → AioOutcome
  | connectError : String → AioOutcome
deriving Repr

/-- Tail of the async fetch (api.py lines 135-138): read the body text,
close the session if the adapter created it, then `json.loads` the
text (a parse failure is raised only after the close). -/
def readBodyAndClose (body : Option JVal) (is_new_session : Bool) (sess : Session) :
    Except PyErr JVal × Option Session :=
  let sess := if is_new_session then { sess with closed := true } else sess
  match body with
  | some json_data => (.ok json_data, some sess)
  | none => (.error .jsonDecodeError, some sess)

/-- `VisualCrossingAPI.async_fetch_data` (api.py lines 103-138), the
non-blocking variant, over a network oracle `net` and the adapter's
stored `self.session` (`session0`).  Returned with the result is the
value of `self.session` after the call: when `session0` is `none` a
fresh session is created AND stored in `self.session`, which the code
never resets; `session.get` on an already-closed session raises a
`RuntimeError` before any network traffic. -/
def VisualCrossingAPI.async_fetch_data (net : String → AioOutcome)
    (session0 : Option Session)
    (api_key latitude longitude : String) (days : Int) (language : String) :
    Except PyErr JVal × Option Session :=
  let api_url := buildApiUrl latitude longitude days api_key language
  let is_new_session := session0.isNone
  let sess : Session :=
    match session0 with
    | none => { createdByAdapter := true, closed := false }
    | some s => s
  if sess.closed then
    (.error .runtimeSessionClosed, some sess)
  else
    match net api_url with
    | .connectError reason => (.error (.aiohttpClientError reason), some sess)
    | .response status body =>
      if status ≠ 200 then
        let sess := if is_new_session then { sess with closed := true } else sess
        if status = 400 then
          (.error (.visualCrossingBadRequest
            "400 BAD_REQUEST Requests is invalid in some way (invalid dates, bad location parameter etc)."),
           some sess)
        else if status = 401 then
          (.error (.visualCrossingUnauthorized
            "401 UNAUTHORIZED The API key is incorrect or your account status is inactive or disabled."),
           some sess)
        else if status = 429 then
          (.error (.visualCrossingTooManyRequests
            "429 TOO_MANY_REQUESTS Too many daily request for the current plan."),
           some sess)
        else if status = 500 then
          (.error (.visualCrossingInternalServerError
            "500 INTERNAL_SERVER_ERROR Visual Crossing servers encounter an unexpected error."),
           some sess)
        else
          readBodyAndClose body is_new_session sess
      else
        readBodyAndClose body is_new_session sess

/-- The mutable state of a `VisualCrossingAPI` object: its `session`
attribute (api.py line 68). -/
structure APIObj where
  session : Option Session
deriving DecidableEq, Repr

/-- The store of `VisualCrossingAPI` objects; a facade holds an index
into it, so two facades holding the same index share one adapter
object (as Python default-argument semantics makes them do). -/
abbrev ObjHeap := List APIObj

/-- The fields of a `VisualCrossing` Client Facade instance
(api.py lines 144-170); `_api` is a reference into the adapter store. -/
structure VisualCrossing where
  _api_key : String
  _latitude : String
  _longitude : String
  _days : Int
  _language : String
  _api : Nat
  _json_data : Option JVal

/-- `VisualCrossing.__init__` (api.py lines 144-170): store the
parameters, clamp `days` above 14 down to 14 (no lower bound), fall
back to `"en"` for a language outside `SUPPORTED_LANGUAGES`, and — only
when a session is supplied — assign it onto the referenced adapter
object.  `SUPPORTED_LANGUAGES` is passed as a parameter: the source
imports it from const.py, which does not define it in this snapshot
(modelled from the spec as an arbitrary fixed supported-language set). -/
def VisualCrossing.init (SUPPORTED_LANGUAGES : List String) (heap : ObjHeap) (api : Nat)
    (api_key latitude longitude : String) (days : Int) (language : String)
    (session : Option Session) : VisualCrossing × ObjHeap :=
  let self : VisualCrossing :=
    { _api_key := api_key
      _latitude := latitude
      _longitude := longitude
      _days := if days > 14 then 14 else days
      _language := if SUPPORTED_LANGUAGES.contains language then language else "en"
      _api := api
      _json_data := none }
  let heap2 :=
    match session with
    | some s => heap.set api { session := some s }
    | none => heap
  (self, heap2)

/-- `VisualCrossing.fetch_data` (api.py lines 172-183): call the
blocking adapter with the stored parameters, assign the raw result to
`self._json_data`, then map it with `_fetch_data`.  If the adapter
raises, the assignment never happens; if the mapper raises, the
assignment has already happened. -/
def VisualCrossing.fetch_data (http : String → HttpOutcome) (tzOff nowEpoch : Int)
    (self : VisualCrossing) : VisualCrossing × Except PyErr (Option ForecastData) :=
  match VisualCrossingAPI.fetch_data http self._api_key self._latitude self._longitude
      self._days self._language with
  | .error e => (self, .error e)
  | .ok raw => ({ self with _json_data := raw }, _fetch_data tzOff nowEpoch raw)

/-- `VisualCrossing.async_fetch_data` (api.py lines 185-196): like the
blocking variant, through the non-blocking adapter whose session state
lives on the referenced adapter object. -/
def VisualCrossing.async_fetch_data (net : String → AioOutcome) (tzOff nowEpoch : Int)
    (heap : ObjHeap) (self : VisualCrossing) :
    VisualCrossing × ObjHeap × Except PyErr (Option ForecastData) :=
  let st := (heap.getD self._api ⟨none⟩).session
  let res := VisualCrossingAPI.async_fetch_data net st self._api_key self._latitude
    self._longitude self._days self._language
  let heap2 := heap.set self._api { session := res.2 }
  match res.1 with
  | .error e => (self, heap2, .error e)
  | .ok raw => ({ self with _json_data := some raw }, heap2, _fetch_data tzOff nowEpoch (some raw))

/-- Reference (spec side, §4.2/§8): the hourly record candidates of one
day's `hours` rows, in row order, with NO future filter.  This is the
pool the spec's filter claim quantifies over; it is compared against
the mapper's filtered output. -/
def specAllHoursOfRows (tzOff : Int) : List JVal → Except PyErr (List ForecastHourlyData)
  | [] => .ok []
  | rowV :: rest =>
    match asObj rowV with
    | .error e => .error e
    | .ok row =>
      match dindex row "datetimeEpoch" with
      | .error e => .error e
      | .ok epochV =>
        match asInt epochV with
        | .error e => .error e
        | .ok epoch =>
          match specAllHoursOfRows tzOff rest with
          | .error e => .error e
          | .ok hs => .ok (mkHourlyData (datetime_fromtimestamp tzOff epoch) row :: hs)

/-- Reference (spec side): all hourly record candidates of a `days`
sequence, day-major and hour-minor, with NO future filter. -/
def specAllHoursOfDays (tzOff : Int) : List JVal → Except PyErr (List ForecastHourlyData)
  | [] => .ok []
  | itemV :: rest =>
    match asObj itemV with
    | .error e => .error e
    | .ok item =>
      match dindex item "hours" with
      | .error e => .error e
      | .ok hoursV =>
        match asArr hoursV with
        | .error e => .error e
        | .ok rows =>
          match specAllHoursOfRows tzOff rows with
          | .error e => .error e
          | .ok hs =>
            match specAllHoursOfDays tzOff rest with
            | .error e => .error e
            | .ok hs2 => .ok (hs ++ hs2)

/-- A key absent from a dict makes `dget` return `none`. -/
theorem dget_eq_none_of_not_mem (d : JObj) (k : String) (h : k ∉ d.map Prod.fst) :
    dget d k = none := by
  induction d with
  | nil => rfl
  | cons p rest ih =>
    simp only [List.map_cons, List.mem_cons, not_or] at h
    have hne : ¬(p.1 == k) = true := by
      simp only [beq_iff_eq]
      exact fun hh => h.1 hh.symm
    have hfalse : (p.1 == k) = false := by
      cases hb : p.1 == k
      · rfl
      · exact absurd hb hne
    show ((p :: rest).find? (fun q => q.1 == k)).map Prod.snd = none
    simp only [List.find?, hfalse]
    exact ih h.2

/-- Inversion helper: the hours loop succeeds exactly when the
unfiltered candidate pool does, and returns its future-filtered part. -/
theorem mapHourRows_eq_filter (tzOff nowEpoch : Int) :
    ∀ (rows : List JVal) (hs : List ForecastHourlyData),
      mapHourRows tzOff nowEpoch rows = .ok hs →
      ∃ all, specAllHoursOfRows tzOff rows = .ok all ∧
        hs = all.filter (fun x => x.datetime.gt (datetime_now tzOff nowEpoch)) := by
  intro rows
  induction rows with
  | nil =>
    intro hs h
    rw [mapHourRows] at h
    cases h
    exact ⟨[], rfl, rfl⟩
  | cons rowV rest ih =>
    intro hs h
    rw [mapHourRows] at h
    split at h
    next e heq => cases h
    next row hobj =>
      split at h
      next e heq => cases h
      next epochV hidx =>
        split at h
        next e heq => cases h
        next epoch hint =>
          split at h
          next e heq => cases h
          next hs0 hrec =>
            cases h
            obtain ⟨all0, hall0, hfilter⟩ := ih hs0 hrec
            refine ⟨mkHourlyData (datetime_fromtimestamp tzOff epoch) row :: all0, ?_, ?_⟩
            · simp only [specAllHoursOfRows, hobj, hidx, hint, hall0]
            · rw [hfilter, List.filter_cons]
              rfl

/-- Inversion helper for the days loop: every daily record carries an
aware UTC timestamp, and the hourly output is the future-filtered
day-major candidate pool. -/
theorem mapDays_inv (tzOff nowEpoch : Int) :
    ∀ (items : List JVal) (fd : List ForecastDailyData) (fh : List ForecastHourlyData),
      mapDays tzOff nowEpoch items = .ok (fd, fh) →
      (∀ d ∈ fd, d.datetime.isAwareUTC) ∧
      ∃ all, specAllHoursOfDays tzOff items = .ok all ∧
        fh = all.filter (fun x => x.datetime.gt (datetime_now tzOff nowEpoch)) := by
  intro items
  induction items with
  | nil =>
    intro fd fh h
    rw [mapDays] at h
    cases h
    exact ⟨by simp, [], rfl, rfl⟩
  | cons itemV rest ih =>
    intro fd fh h
    rw [mapDays] at h
    split at h
    next e heq => cases h
    next item hobj =>
      split at h
      next e heq => cases h
      next epochV hidx =>
        split at h
        next e heq => cases h
        next epoch hint =>
          split at h
          next e heq => cases h
          next hoursV hhrs =>
            split at h
            next e heq => cases h
            next rows harr =>
              split at h
              next e heq => cases h
              next hs hmap =>
                split at h
                next e heq => cases h
                next ds hs2 hrec =>
                  cases h
                  obtain ⟨hdaily, all2, hall2, hfilter2⟩ := ih ds hs2 hrec
                  obtain ⟨all1, hall1, hfilter1⟩ :=
                    mapHourRows_eq_filter tzOff nowEpoch rows hs hmap
                  constructor
                  · intro d hd
                    cases hd with
                    | head => exact rfl
                    | tail _ htail => exact hdaily d htail
                  · refine ⟨all1 ++ all2, ?_, ?_⟩
                    · simp only [specAllHoursOfDays, hobj, hhrs, harr, hall1, hall2]
                    · rw [hfilter1, hfilter2, List.filter_append]

/-- Inversion for `asObj`. -/
theorem asObj_eq_ok {v : JVal} {d : JObj} (h : asObj v = .ok d) : v = .obj d := by
  cases v with
  | obj d2 => cases h; rfl
  | num n => cases h
  | str s => cases h
  | bool b => cases h
  | null => cases h
  | arr xs => cases h

/-- Inversion for `asArr`. -/
theorem asArr_eq_ok {v : JVal} {xs : List JVal} (h : asArr v = .ok xs) : v = .arr xs := by
  cases v with
  | arr ys => cases h; rfl
  | num n => cases h
  | str s => cases h
  | bool b => cases h
  | null => cases h
  | obj d => cases h

/-- Inversion for `asInt`. -/
theorem asInt_eq_ok {v : JVal} {n : Int} (h : asInt v = .ok n) : v = .num n := by
  cases v with
  | num m => cases h; rfl
  | str s => cases h
  | bool b => cases h
  | null => cases h
  | arr xs => cases h
  | obj d => cases h

/-- Every record in the unfiltered hour pool of one day carries a naive
(tzinfo-less) local timestamp. -/
theorem specAllHoursOfRows_tzinfo (tzOff : Int) :
    ∀ (rows : List JVal) (all : List ForecastHourlyData),
      specAllHoursOfRows tzOff rows = .ok all → ∀ x ∈ all, x.datetime.tzinfo = none := by
  intro rows
  induction rows with
  | nil =>
    intro all h
    rw [specAllHoursOfRows] at h
    cases h
    simp
  | cons rowV rest ih =>
    intro all h
    rw [specAllHoursOfRows] at h
    split at h
    next e heq => cases h
    next row hobj =>
      split at h
      next e heq => cases h
      next epochV hidx =>
        split at h
        next e heq => cases h
        next epoch hint =>
          split at h
          next e heq => cases h
          next hs hrec =>
            cases h
            intro x hx
            cases hx with
            | head => exact rfl
            | tail _ htail => exact ih hs hrec x htail

/-- Every record in the unfiltered day-major hour pool carries a naive
(tzinfo-less) local timestamp. -/
theorem specAllHoursOfDays_tzinfo (tzOff : Int) :
    ∀ (items : List JVal) (all : List ForecastHourlyData),
      specAllHoursOfDays tzOff items = .ok all → ∀ x ∈ all, x.datetime.tzinfo = none := by
  intro items
  induction items with
  | nil =>
    intro all h
    rw [specAllHoursOfDays] at h
    cases h
    simp
  | cons itemV rest ih =>
    intro all h
    rw [specAllHoursOfDays] at h
    split at h
    next e heq => cases h
    next item hobj =>
      split at h
      next e heq => cases h
      next hoursV hhrs =>
        split at h
        next e heq => cases h
        next rows harr =>
          split at h
          next e heq => cases h
          next hs hrec =>
            split at h
            next e heq => cases h
            next hs2 hrec2 =>
              cases h
              intro x hx
              cases List.mem_append.mp hx with
              | inl h1 => exact specAllHoursOfRows_tzinfo tzOff rows hs hrec x h1
              | inr h2 => exact ih hs2 hrec2 x h2

/-- Inversion for `_get_current_data`: on success the result is the
record built from the `currentConditions` object, with an aware UTC
timestamp taken from its `datetimeEpoch`. -/
theorem _get_current_data_inv (api_result : JObj) (w : ForecastData)
    (h : _get_current_data api_result = .ok w) :
    ∃ (item : JObj) (epoch : Int),
      dindex api_result "currentConditions" = .ok (.obj item) ∧
      dindex item "datetimeEpoch" = .ok (.num epoch) ∧
      w = buildCurrentData api_result item ⟨epoch, some 0⟩ := by
  unfold _get_current_data at h
  split at h
  next e heq => cases h
  next itemV hcc =>
    split at h
    next e heq => cases h
    next item hobj =>
      split at h
      next e heq => cases h
      next epochV hidx =>
        split at h
        next e heq => cases h
        next epoch hint =>
          cases h
          exact ⟨item, epoch, asObj_eq_ok hobj ▸ hcc, asInt_eq_ok hint ▸ hidx, rfl⟩

/-- Inversion for `_fetch_data`: a successfully mapped payload is the
current-conditions record with the day-loop results attached. -/
theorem _fetch_data_inv (tzOff nowEpoch : Int) (v : JVal) (w : ForecastData)
    (h : _fetch_data tzOff nowEpoch (some v) = .ok (some w)) :
    ∃ (d : JObj) (wd : ForecastData) (items : List JVal)
      (fd : List ForecastDailyData) (fh : List ForecastHourlyData),
      asObj v = .ok d ∧
      _get_current_data d = .ok wd ∧
      dindex d "days" = .ok (.arr items) ∧
      mapDays tzOff nowEpoch items = .ok (fd, fh) ∧
      w = { wd with forecast_daily := fd, forecast_hourly := fh } := by
  rw [_fetch_data] at h
  split at h
  next e heq => cases h
  next d hobj =>
    split at h
    next e heq => cases h
    next wd hcur =>
      split at h
      next e heq => cases h
      next daysV hdays =>
        split at h
        next e heq => cases h
        next items harr =>
          split at h
          next e heq => cases h
          next fd fh hmap =>
            cases h
            exact ⟨d, wd, items, fd, fh, hobj, hcur, asArr_eq_ok harr ▸ hdays, hmap, rfl⟩

/-- C6: constructing the Client Facade with `days` greater than 14
stores 14 — so `days=20` builds the same outgoing request parameter as
`days=14` — while any value of 14 or below is stored unchanged, with no
lower-bound validation. -/
theorem C6_days_clamping (SUPPORTED_LANGUAGES : List String) (heap : ObjHeap) (api : Nat)
    (api_key latitude longitude : String) (days : Int) (language : String)
    (session : Option Session) :
    (VisualCrossing.init SUPPORTED_LANGUAGES heap api api_key latitude longitude
        days language session).1._days = (if days > 14 then 14 else days) ∧
    buildApiUrl latitude longitude
        (VisualCrossing.init SUPPORTED_LANGUAGES heap api api_key latitude longitude
          20 language session).1._days api_key language
      = buildApiUrl latitude longitude
        (VisualCrossing.init SUPPORTED_LANGUAGES heap api api_key latitude longitude
          14 language session).1._days api_key language :=
  ⟨rfl, by norm_num [VisualCrossing.init]⟩

/-- C7: a language outside the supported-language set is replaced by
`"en"` at construction; a member of the set is preserved unchanged. -/
theorem C7_language_fallback (SUPPORTED_LANGUAGES : List String) (heap : ObjHeap) (api : Nat)
    (api_key latitude longitude : String) (days : Int) (language : String)
    (session : Option Session) :
    (VisualCrossing.init SUPPORTED_LANGUAGES heap api api_key latitude longitude
        days language session).1._language
      = if language ∈ SUPPORTED_LANGUAGES then language else "en" := by
  show (if SUPPORTED_LANGUAGES.contains language then language else "en") = _
  simp only [List.elem_iff]

/-- C8 counterexample: an EMPTY payload (an adapter result that is an
empty dict rather than `None`) makes the mapper raise a `KeyError`
instead of returning `None`, refuting the "null or empty" claim. -/
theorem C8_counterexample :
    _fetch_data 0 0 (some (JVal.obj [])) = .error (.keyError "currentConditions") := rfl

/-- C8 amended: a `None` adapter payload makes `_fetch_data` — and
hence `fetch_data()`, e.g. after an uncaught-status 404 — return `None`
rather than raise; but an EMPTY payload is not special-cased and raises
a `KeyError` on `currentConditions`. -/
theorem C8_null_payload (tzOff nowEpoch : Int) (self : VisualCrossing) :
    _fetch_data tzOff nowEpoch none = .ok none ∧
    (VisualCrossing.fetch_data (fun _ => .httpError 404) tzOff nowEpoch self).2 = .ok none ∧
    _fetch_data tzOff nowEpoch (some (JVal.obj [])) = .error (.keyError "currentConditions") :=
  ⟨rfl, rfl, rfl⟩

/-- C1 counterexample: a blocking fetch that receives HTTP 404 raises
nothing at all — it returns `None` — rather than failing with the
generic `VisualCrossingException` the claim requires for every other
non-200 status. -/
theorem C1_counterexample :
    VisualCrossingAPI.fetch_data (fun _ => .httpError 404) "key" "59.9" "10.7" 14 "en"
      = .ok none := rfl

/-- C1 amended: statuses 400/401/429/500 map to the four named
exceptions in both variants and a 200 with a JSON body returns the
parsed body, but the generic `VisualCrossingException` is never
raised: in the blocking variant any other `HTTPError` status yields
`None`, a transport-level `URLError` propagates as itself, and a
non-JSON body raises the JSON decode error; in the non-blocking
variant any status outside the four — 200 or not — falls through to
parsing and returning the body, and a connection failure propagates as
the underlying client error. -/
theorem C1_status_taxonomy (api_key latitude longitude : String) (days : Int)
    (language : String) (j : JVal) (code : Nat) (reason : String)
    (session0 : Option Session)
    (hopen : ∀ s, session0 = some s → s.closed = false)
    (h400 : code ≠ 400) (h401 : code ≠ 401) (h429 : code ≠ 429) (h500 : code ≠ 500) :
    (VisualCrossingAPI.fetch_data (fun _ => .success (some j))
        api_key latitude longitude days language = .ok (some j)) ∧
    (VisualCrossingAPI.fetch_data (fun _ => .success none)
        api_key latitude longitude days language = .error .jsonDecodeError) ∧
    (VisualCrossingAPI.fetch_data (fun _ => .httpError 400)
        api_key latitude longitude days language = .error (.visualCrossingBadRequest
        "400 BAD_REQUEST Requests is invalid in some way (invalid dates, bad location parameter etc).")) ∧
    (VisualCrossingAPI.fetch_data (fun _ => .httpError 401)
        api_key latitude longitude days language = .error (.visualCrossingUnauthorized
        "401 UNAUTHORIZED The API key is incorrect or your account status is inactive or disabled.")) ∧
    (VisualCrossingAPI.fetch_data (fun _ => .httpError 429)
        api_key latitude longitude days language = .error (.visualCrossingTooManyRequests
        "429 TOO_MANY_REQUESTS Too many daily request for the current plan.")) ∧
    (VisualCrossingAPI.fetch_data (fun _ => .httpError 500)
        api_key latitude longitude days language = .error (.visualCrossingInternalServerError
        "500 INTERNAL_SERVER_ERROR Visual Crossing servers encounter an unexpected error.")) ∧
    (VisualCrossingAPI.fetch_data (fun _ => .httpError code)
        api_key latitude longitude days language = .ok none) ∧
    (VisualCrossingAPI.fetch_data (fun _ => .urlError reason)
        api_key latitude longitude days language = .error (.urlError reason)) ∧
    ((VisualCrossingAPI.async_fetch_data (fun _ => .response 400 (some j)) session0
        api_key latitude longitude days language).1 = .error (.visualCrossingBadRequest
        "400 BAD_REQUEST Requests is invalid in some way (invalid dates, bad location parameter etc).")) ∧
    ((VisualCrossingAPI.async_fetch_data (fun _ => .response 401 (some j)) session0
        api_key latitude longitude days language).1 = .error (.visualCrossingUnauthorized
        "401 UNAUTHORIZED The API key is incorrect or your account status is inactive or disabled.")) ∧
    ((VisualCrossingAPI.async_fetch_data (fun _ => .response 429 (some j)) session0
        api_key latitude longitude days language).1 = .error (.visualCrossingTooManyRequests
        "429 TOO_MANY_REQUESTS Too many daily request for the current plan.")) ∧
    ((VisualCrossingAPI.async_fetch_data (fun _ => .response 500 (some j)) session0
        api_key latitude longitude days language).1 = .error (.visualCrossingInternalServerError
        "500 INTERNAL_SERVER_ERROR Visual Crossing servers encounter an unexpected error.")) ∧
    ((VisualCrossingAPI.async_fetch_data (fun _ => .response code (some j)) session0
        api_key latitude longitude days language).1 = .ok j) ∧
    ((VisualCrossingAPI.async_fetch_data (fun _ => .response code none) session0
        api_key latitude longitude days language).1 = .error .jsonDecodeError) ∧
    ((VisualCrossingAPI.async_fetch_data (fun _ => .connectError reason) session0
        api_key latitude longitude days language).1 = .error (.aiohttpClientError reason)) := by
  refine ⟨rfl, rfl, rfl, rfl, rfl, rfl, ?_, rfl, ?_, ?_, ?_, ?_, ?_, ?_, ?_⟩
  · simp [VisualCrossingAPI.fetch_data, h400, h401, h429, h500]
  all_goals
    cases session0 with
    | none =>
      by_cases h200 : code = 200 <;>
        simp [VisualCrossingAPI.async_fetch_data, readBodyAndClose,
          h200, h400, h401, h429, h500]
    | some s =>
      have ho := hopen s rfl
      by_cases h200 : code = 200 <;>
        simp [VisualCrossingAPI.async_fetch_data, readBodyAndClose, ho,
          h200, h400, h401, h429, h500]

/-- C1 witness: the amended taxonomy at concrete inputs — a blocking
fetch that receives status 418 returns `None`, and a non-blocking fetch
that receives status 418 with a JSON body returns the parsed body. -/
theorem C1_witness :
    VisualCrossingAPI.fetch_data (fun _ => .httpError 418) "k" "1" "2" 3 "en" = .ok none ∧
    (VisualCrossingAPI.async_fetch_data (fun _ => .response 418 (some JVal.null)) none
        "k" "1" "2" 3 "en").1 = .ok JVal.null := by
  have h := C1_status_taxonomy "k" "1" "2" 3 "en" JVal.null 418 "r" none
    (fun s hs => by cases hs) (by decide) (by decide) (by decide) (by decide)
  exact ⟨h.2.2.2.2.2.2.1, h.2.2.2.2.2.2.2.2.2.2.2.2.1⟩

/-- A minimal well-formed payload: current conditions at epoch 5, one
day at epoch 0 holding one hour entry at epoch 10. -/
def naiveHourPayload : JVal := JVal.obj
  [("currentConditions", JVal.obj [("datetimeEpoch", JVal.num 5)]),
   ("days", JVal.arr
     [JVal.obj [("datetimeEpoch", JVal.num 0),
       ("hours", JVal.arr [JVal.obj [("datetimeEpoch", JVal.num 10)]])]])]

/-- The daily record `naiveHourPayload` maps to on a UTC+1 host
(`tzOff = 3600`) at wall-clock epoch 0. -/
def naiveHourDaily : ForecastDailyData :=
  { datetime := ⟨0, some 0⟩
    temperature := none
    temp_low := none
    apparent_temperature := none
    condition := none
    icon := none
    cloudcover := none
    dew_point := none
    humidity := none
    precipitation_probability := none
    precipitation := none
    pressure := none
    wind_bearing := none
    wind_speed := none
    wind_gust_speed := none
    uv_index := none }

/-- The hourly record `naiveHourPayload` maps to: note the naive,
locally shifted timestamp. -/
def naiveHourHourly : ForecastHourlyData :=
  { datetime := ⟨3610, none⟩
    temperature := none
    apparent_temperature := none
    condition := none
    cloudcover := none
    icon := none
    dew_point := none
    humidity := none
    precipitation := none
    precipitation_probability := none
    pressure := none
    wind_bearing := none
    wind_gust_speed := none
    wind_speed := none
    uv_index := none }

def naiveHourMapped : ForecastData :=
  { datetime := ⟨5, some 0⟩
    apparent_temperature := none
    condition := none
    cloudcover := none
    dew_point := none
    humidity := none
    icon := none
    precipitation := none
    precipitation_probability := none
    pressure := none
    solarradiation := none
    temperature := none
    visibility := none
    uv_index := none
    wind_bearing := none
    wind_gust_speed := none
    wind_speed := none
    location_name := none
    description := none
    forecast_daily := [naiveHourDaily]
    forecast_hourly := [naiveHourHourly] }

/-- C2 counterexample: mapped on a host whose local clock is UTC+1 at
wall-clock epoch 0, the hourly record's stored timestamp is the naive
local value ⟨3610, none⟩: it carries no tzinfo and is not the UTC
instant of its epoch field (10), refuting "every timestamp stored in
the domain model is a timezone-aware UTC instant". -/
theorem C2_counterexample :
    Except.map (Option.map (fun w => w.forecast_hourly.map (fun x => x.datetime)))
        (_fetch_data 3600 0 (some naiveHourPayload))
      = .ok (some [⟨3610, none⟩]) ∧
    ¬ (⟨3610, none⟩ : PyDatetime).isAwareUTC :=
  ⟨rfl, by decide⟩

/-- C2 amended: in every successfully mapped payload the
current-conditions timestamp and every daily timestamp are
timezone-aware UTC instants computed from their epoch fields, but
every hourly timestamp is naive (tzinfo-less), computed by LOCAL-time
conversion of its epoch. -/
theorem C2_timestamp_zones (tzOff nowEpoch : Int) (v : JVal) (w : ForecastData)
    (h : _fetch_data tzOff nowEpoch (some v) = .ok (some w)) :
    w.datetime.isAwareUTC ∧
    (∀ d ∈ w.forecast_daily, d.datetime.isAwareUTC) ∧
    (∀ x ∈ w.forecast_hourly, x.datetime.tzinfo = none) := by
  obtain ⟨d, wd, items, fd, fh, hobj, hcur, hdays, hmap, hw⟩ :=
    _fetch_data_inv tzOff nowEpoch v w h
  obtain ⟨hdaily, all, hall, hfilter⟩ := mapDays_inv tzOff nowEpoch items fd fh hmap
  obtain ⟨item, epoch, hccidx, hepoch, hwd⟩ := _get_current_data_inv d wd hcur
  subst hw
  refine ⟨?_, ?_, ?_⟩
  · subst hwd; exact rfl
  · intro x hx
    exact hdaily x hx
  · intro x hx
    refine specAllHoursOfDays_tzinfo tzOff items all hall x ?_
    rw [hfilter] at hx
    exact List.mem_of_mem_filter hx

/-- C2 witness: the amended statement at the concrete payload — the
mapped current and daily timestamps are aware UTC and the mapped hourly
timestamp is naive. -/
theorem C2_witness :
    naiveHourMapped.datetime.isAwareUTC ∧
    naiveHourDaily.datetime.isAwareUTC ∧
    naiveHourHourly.datetime.tzinfo = none := by
  have h := C2_timestamp_zones 3600 0 naiveHourPayload naiveHourMapped rfl
  exact ⟨h.1, h.2.1 naiveHourDaily (by simp [naiveHourMapped]),
    h.2.2 naiveHourHourly (by simp [naiveHourMapped])⟩

/-- C3: at a fixed clock (`nowEpoch`, host offset `tzOff`), the mapped
`forecast_hourly` is exactly the future-filtered day-major hour pool of
the payload; filtering preserves ascending timestamp order of a
chronologically sorted pool; and remapping the same payload at the same
clock is deterministic. -/
theorem C3_hourly_filter (tzOff nowEpoch : Int) (v : JVal) (w : ForecastData)
    (d : JObj) (items : List JVal)
    (h : _fetch_data tzOff nowEpoch (some v) = .ok (some w))
    (hobj : asObj v = .ok d)
    (hdays : dindex d "days" = .ok (.arr items)) :
    ∃ all, specAllHoursOfDays tzOff items = .ok all ∧
      w.forecast_hourly = all.filter (fun x => x.datetime.gt (datetime_now tzOff nowEpoch)) ∧
      (List.Pairwise (fun a b => a.datetime.seconds ≤ b.datetime.seconds) all →
        List.Pairwise (fun a b => a.datetime.seconds ≤ b.datetime.seconds) w.forecast_hourly) ∧
      _fetch_data tzOff nowEpoch (some v) = _fetch_data tzOff nowEpoch (some v) := by
  obtain ⟨d2, wd, items2, fd, fh, hobj2, hcur, hdays2, hmap, hw⟩ :=
    _fetch_data_inv tzOff nowEpoch v w h
  rw [hobj] at hobj2
  cases hobj2
  rw [hdays] at hdays2
  cases hdays2
  obtain ⟨hdaily, all, hall, hfilter⟩ := mapDays_inv tzOff nowEpoch items fd fh hmap
  subst hw
  refine ⟨all, hall, hfilter, ?_, rfl⟩
  intro hsorted
  rw [show ({ wd with forecast_daily := fd, forecast_hourly := fh } : ForecastData).forecast_hourly = fh from rfl, hfilter]
  exact hsorted.filter _

/-- C3 witness: the filter characterization applied to the concrete
payload `naiveHourPayload` at clock epoch 0 on a UTC+1 host. -/
theorem C3_witness :
    ∃ all, specAllHoursOfDays 3600
        [JVal.obj [("datetimeEpoch", JVal.num 0),
          ("hours", JVal.arr [JVal.obj [("datetimeEpoch", JVal.num 10)]])]] = .ok all ∧
      naiveHourMapped.forecast_hourly
        = all.filter (fun x => x.datetime.gt (datetime_now 3600 0)) ∧
      (List.Pairwise (fun a b => a.datetime.seconds ≤ b.datetime.seconds) all →
        List.Pairwise (fun a b => a.datetime.seconds ≤ b.datetime.seconds)
          naiveHourMapped.forecast_hourly) ∧
      _fetch_data 3600 0 (some naiveHourPayload) = _fetch_data 3600 0 (some naiveHourPayload) :=
  C3_hourly_filter 3600 0 naiveHourPayload naiveHourMapped
    [("currentConditions", JVal.obj [("datetimeEpoch", JVal.num 5)]),
     ("days", JVal.arr
       [JVal.obj [("datetimeEpoch", JVal.num 0),
         ("hours", JVal.arr [JVal.obj [("datetimeEpoch", JVal.num 10)]])]])]
    [JVal.obj [("datetimeEpoch", JVal.num 0),
      ("hours", JVal.arr [JVal.obj [("datetimeEpoch", JVal.num 10)]])]]
    rfl rfl rfl

/-- C9: every optional field absent from the provider payload maps to
the explicit no-value marker `none` — never a default numeric value —
in the current-conditions record (including the top-level `address` and
`description`), in every daily record, and in every hourly record. -/
theorem C9_missing_optional_fields (tzOff nowEpoch : Int) (v : JVal) (w : ForecastData)
    (d cc : JObj)
    (h : _fetch_data tzOff nowEpoch (some v) = .ok (some w))
    (hobj : asObj v = .ok d)
    (hcc : dindex d "currentConditions" = .ok (.obj cc)) :
    (("solarradiation" ∉ cc.map Prod.fst → w.solarradiation = none) ∧
    ("feelslike" ∉ cc.map Prod.fst → w.apparent_temperature = none) ∧
    ("conditions" ∉ cc.map Prod.fst → w.condition = none) ∧
    ("cloudcover" ∉ cc.map Prod.fst → w.cloudcover = none) ∧
    ("dew" ∉ cc.map Prod.fst → w.dew_point = none) ∧
    ("humidity" ∉ cc.map Prod.fst → w.humidity = none) ∧
    ("icon" ∉ cc.map Prod.fst → w.icon = none) ∧
    ("precip" ∉ cc.map Prod.fst → w.precipitation = none) ∧
    ("precipprob" ∉ cc.map Prod.fst → w.precipitation_probability = none) ∧
    ("pressure" ∉ cc.map Prod.fst → w.pressure = none) ∧
    ("temp" ∉ cc.map Prod.fst → w.temperature = none) ∧
    ("visibility" ∉ cc.map Prod.fst → w.visibility = none) ∧
    ("uvindex" ∉ cc.map Prod.fst → w.uv_index = none) ∧
    ("winddir" ∉ cc.map Prod.fst → w.wind_bearing = none) ∧
    ("windgust" ∉ cc.map Prod.fst → w.wind_gust_speed = none) ∧
    ("windspeed" ∉ cc.map Prod.fst → w.wind_speed = none) ∧
    ("address" ∉ d.map Prod.fst → w.location_name = none) ∧
    ("description" ∉ d.map Prod.fst → w.description = none)) ∧
    (∀ (item : JObj) (vt : PyDatetime),
       ("tempmax" ∉ item.map Prod.fst → (mkDailyData vt item).temperature = none) ∧
       ("tempmin" ∉ item.map Prod.fst → (mkDailyData vt item).temp_low = none) ∧
       ("feelslike" ∉ item.map Prod.fst → (mkDailyData vt item).apparent_temperature = none) ∧
       ("conditions" ∉ item.map Prod.fst → (mkDailyData vt item).condition = none) ∧
       ("icon" ∉ item.map Prod.fst → (mkDailyData vt item).icon = none) ∧
       ("cloudcover" ∉ item.map Prod.fst → (mkDailyData vt item).cloudcover = none) ∧
       ("dew" ∉ item.map Prod.fst → (mkDailyData vt item).dew_point = none) ∧
       ("humidity" ∉ item.map Prod.fst → (mkDailyData vt item).humidity = none) ∧
       ("precipprob" ∉ item.map Prod.fst → (mkDailyData vt item).precipitation_probability = none) ∧
       ("precip" ∉ item.map Prod.fst → (mkDailyData vt item).precipitation = none) ∧
       ("pressure" ∉ item.map Prod.fst → (mkDailyData vt item).pressure = none) ∧
       ("winddir" ∉ item.map Prod.fst → (mkDailyData vt item).wind_bearing = none) ∧
       ("windspeed" ∉ item.map Prod.fst → (mkDailyData vt item).wind_speed = none) ∧
       ("windgust" ∉ item.map Prod.fst → (mkDailyData vt item).wind_gust_speed = none) ∧
       ("uvindex" ∉ item.map Prod.fst → (mkDailyData vt item).uv_index = none)) ∧
    (∀ (row : JObj) (vt : PyDatetime),
       ("temp" ∉ row.map Prod.fst → (mkHourlyData vt row).temperature = none) ∧
       ("feelslike" ∉ row.map Prod.fst → (mkHourlyData vt row).apparent_temperature = none) ∧
       ("conditions" ∉ row.map Prod.fst → (mkHourlyData vt row).condition = none) ∧
       ("cloudcover" ∉ row.map Prod.fst → (mkHourlyData vt row).cloudcover = none) ∧
       ("icon" ∉ row.map Prod.fst → (mkHourlyData vt row).icon = none) ∧
       ("dew" ∉ row.map Prod.fst → (mkHourlyData vt row).dew_point = none) ∧
       ("humidity" ∉ row.map Prod.fst → (mkHourlyData vt row).humidity = none) ∧
       ("precip" ∉ row.map Prod.fst → (mkHourlyData vt row).precipitation = none) ∧
       ("precipprob" ∉ row.map Prod.fst → (mkHourlyData vt row).precipitation_probability = none) ∧
       ("pressure" ∉ row.map Prod.fst → (mkHourlyData vt row).pressure = none) ∧
       ("winddir" ∉ row.map Prod.fst → (mkHourlyData vt row).wind_bearing = none) ∧
       ("windgust" ∉ row.map Prod.fst → (mkHourlyData vt row).wind_gust_speed = none) ∧
       ("windspeed" ∉ row.map Prod.fst → (mkHourlyData vt row).wind_speed = none) ∧
       ("uvindex" ∉ row.map Prod.fst → (mkHourlyData vt row).uv_index = none)) := by
  obtain ⟨d2, wd, items, fd, fh, hobj2, hcur, hdays, hmap, hw⟩ :=
    _fetch_data_inv tzOff nowEpoch v w h
  rw [hobj] at hobj2
  cases hobj2
  obtain ⟨item0, epoch, hccidx, hepoch, hwd⟩ := _get_current_data_inv d wd hcur
  rw [hcc] at hccidx
  cases hccidx
  subst hw
  subst hwd
  refine ⟨⟨?_, ?_, ?_, ?_, ?_, ?_, ?_, ?_, ?_, ?_, ?_, ?_, ?_, ?_, ?_, ?_, ?_, ?_⟩, ?_, ?_⟩
  · intro hk
    show dget cc "solarradiation" = none
    exact dget_eq_none_of_not_mem cc "solarradiation" hk
  · intro hk
    show dget cc "feelslike" = none
    exact dget_eq_none_of_not_mem cc "feelslike" hk
  · intro hk
    show dget cc "conditions" = none
    exact dget_eq_none_of_not_mem cc "conditions" hk
  · intro hk
    show dget cc "cloudcover" = none
    exact dget_eq_none_of_not_mem cc "cloudcover" hk
  · intro hk
    show dget cc "dew" = none
    exact dget_eq_none_of_not_mem cc "dew" hk
  · intro hk
    show dget cc "humidity" = none
    exact dget_eq_none_of_not_mem cc "humidity" hk
  · intro hk
    show dget cc "icon" = none
    exact dget_eq_none_of_not_mem cc "icon" hk
  · intro hk
    show dget cc "precip" = none
    exact dget_eq_none_of_not_mem cc "precip" hk
  · intro hk
    show dget cc "precipprob" = none
    exact dget_eq_none_of_not_mem cc "precipprob" hk
  · intro hk
    show dget cc "pressure" = none
    exact dget_eq_none_of_not_mem cc "pressure" hk
  · intro hk
    show dget cc "temp" = none
    exact dget_eq_none_of_not_mem cc "temp" hk
  · intro hk
    show dget cc "visibility" = none
    exact dget_eq_none_of_not_mem cc "visibility" hk
  · intro hk
    show dget cc "uvindex" = none
    exact dget_eq_none_of_not_mem cc "uvindex" hk
  · intro hk
    show dget cc "winddir" = none
    exact dget_eq_none_of_not_mem cc "winddir" hk
  · intro hk
    show dget cc "windgust" = none
    exact dget_eq_none_of_not_mem cc "windgust" hk
  · intro hk
    show dget cc "windspeed" = none
    exact dget_eq_none_of_not_mem cc "windspeed" hk
  · intro hk
    show dget d "address" = none
    exact dget_eq_none_of_not_mem d "address" hk
  · intro hk
    show dget d "description" = none
    exact dget_eq_none_of_not_mem d "description" hk
  · intro item vt
    refine ⟨?_, ?_, ?_, ?_, ?_, ?_, ?_, ?_, ?_, ?_, ?_, ?_, ?_, ?_, ?_⟩ <;>
      (intro hk; exact dget_eq_none_of_not_mem item _ hk)
  · intro row vt
    refine ⟨?_, ?_, ?_, ?_, ?_, ?_, ?_, ?_, ?_, ?_, ?_, ?_, ?_, ?_⟩ <;>
      (intro hk; exact dget_eq_none_of_not_mem row _ hk)

/-- C9 witness: concrete absent fields — `solarradiation` missing from
the payload's current conditions, `tempmax` missing from an empty day
object and `temp` missing from an empty hour object — all map to
`none`. -/
theorem C9_witness :
    naiveHourMapped.solarradiation = none ∧
    (mkDailyData ⟨0, some 0⟩ []).temperature = none ∧
    (mkHourlyData ⟨0, none⟩ []).temperature = none := by
  have h := C9_missing_optional_fields 3600 0 naiveHourPayload naiveHourMapped
    [("currentConditions", JVal.obj [("datetimeEpoch", JVal.num 5)]),
     ("days", JVal.arr
       [JVal.obj [("datetimeEpoch", JVal.num 0),
         ("hours", JVal.arr [JVal.obj [("datetimeEpoch", JVal.num 10)]])]])]
    [("datetimeEpoch", JVal.num 5)] rfl rfl rfl
  exact ⟨h.1.1 (by decide), (h.2.1 [] ⟨0, some 0⟩).1 (by decide),
    (h.2.2 [] ⟨0, none⟩).1 (by decide)⟩

/-- C4: the non-blocking adapter's scoped acquisition is broken.  At
concrete inputs: (1) when the GET itself fails at transport level, the
adapter-created session is NOT closed; (2) on success the created
session IS closed but survives the call inside `self.session`, which
the code never resets; (3) a follow-up sessionless call therefore trips
over the stored closed session before any network traffic; while (4) a
caller-supplied session is indeed never closed. -/
theorem C4_session_lifecycle_bug :
    (VisualCrossingAPI.async_fetch_data (fun _ => .connectError "dns lookup failed") none
        "k" "1" "2" 3 "en").2 = some { createdByAdapter := true, closed := false } ∧
    (VisualCrossingAPI.async_fetch_data (fun _ => .response 200 (some JVal.null)) none
        "k" "1" "2" 3 "en").2 = some { createdByAdapter := true, closed := true } ∧
    (VisualCrossingAPI.async_fetch_data (fun _ => .response 200 (some JVal.null))
        (some { createdByAdapter := true, closed := true }) "k" "1" "2" 3 "en").1
      = .error .runtimeSessionClosed ∧
    (VisualCrossingAPI.async_fetch_data (fun _ => .response 200 (some JVal.null))
        (some { createdByAdapter := false, closed := false }) "k" "1" "2" 3 "en").2
      = some { createdByAdapter := false, closed := false } :=
  ⟨rfl, rfl, rfl, rfl⟩

/-- C5: the default argument `api=VisualCrossingAPI()` is evaluated
once, so every facade constructed without an explicit adapter shares
ONE adapter object (index 0 here).  Constructing facade A without a
session leaves the shared adapter untouched, but then constructing
facade B with a caller session mutates it — changing A's observable
adapter state, and thereby the session A's next non-blocking fetch uses
and leaves behind. -/
theorem C5_shared_default_adapter_bug :
    (VisualCrossing.init ["en"] [⟨none⟩] 0 "keyA" "1" "2" 14 "en" none).2 = [⟨none⟩] ∧
    (VisualCrossing.init ["en"] [⟨none⟩] 0 "keyB" "3" "4" 14 "en"
        (some { createdByAdapter := false, closed := false })).2
      = [⟨some { createdByAdapter := false, closed := false }⟩] ∧
    (VisualCrossing.async_fetch_data (fun _ => .response 200 (some JVal.null)) 0 0
        [⟨none⟩]
        (VisualCrossing.init ["en"] [⟨none⟩] 0 "keyA" "1" "2" 14 "en" none).1).2.1
      = [⟨some { createdByAdapter := true, closed := true }⟩] ∧
    (VisualCrossing.async_fetch_data (fun _ => .response 200 (some JVal.null)) 0 0
        [⟨some { createdByAdapter := false, closed := false }⟩]
        (VisualCrossing.init ["en"] [⟨none⟩] 0 "keyA" "1" "2" 14 "en" none).1).2.1
      = [⟨some { createdByAdapter := false, closed := false }⟩] :=
  ⟨rfl, rfl, rfl, rfl⟩

/-- C10: each facade fetch stores the adapter's raw result in
`_json_data` before mapping begins — so the raw payload is retained
even when the mapper then raises — and no other facade field (API key,
coordinates, days, language, adapter reference) is changed. -/
theorem C10_raw_retained (http : String → HttpOutcome) (net : String → AioOutcome)
    (tzOff nowEpoch : Int) (self : VisualCrossing) (heap : ObjHeap)
    (raw : Option JVal) (rawA : JVal)
    (hb : VisualCrossingAPI.fetch_data http self._api_key self._latitude self._longitude
        self._days self._language = .ok raw)
    (ha : (VisualCrossingAPI.async_fetch_data net ((heap.getD self._api ⟨none⟩).session)
        self._api_key self._latitude self._longitude self._days self._language).1
      = .ok rawA) :
    ((VisualCrossing.fetch_data http tzOff nowEpoch self).1._json_data = raw ∧
     (VisualCrossing.fetch_data http tzOff nowEpoch self).1._api_key = self._api_key ∧
     (VisualCrossing.fetch_data http tzOff nowEpoch self).1._latitude = self._latitude ∧
     (VisualCrossing.fetch_data http tzOff nowEpoch self).1._longitude = self._longitude ∧
     (VisualCrossing.fetch_data http tzOff nowEpoch self).1._days = self._days ∧
     (VisualCrossing.fetch_data http tzOff nowEpoch self).1._language = self._language ∧
     (VisualCrossing.fetch_data http tzOff nowEpoch self).1._api = self._api ∧
     (VisualCrossing.fetch_data http tzOff nowEpoch self).2
       = _fetch_data tzOff nowEpoch raw) ∧
    ((VisualCrossing.async_fetch_data net tzOff nowEpoch heap self).1._json_data = some rawA ∧
     (VisualCrossing.async_fetch_data net tzOff nowEpoch heap self).1._api_key = self._api_key ∧
     (VisualCrossing.async_fetch_data net tzOff nowEpoch heap self).1._latitude = self._latitude ∧
     (VisualCrossing.async_fetch_data net tzOff nowEpoch heap self).1._longitude = self._longitude ∧
     (VisualCrossing.async_fetch_data net tzOff nowEpoch heap self).1._days = self._days ∧
     (VisualCrossing.async_fetch_data net tzOff nowEpoch heap self).1._language = self._language ∧
     (VisualCrossing.async_fetch_data net tzOff nowEpoch heap self).1._api = self._api ∧
     (VisualCrossing.async_fetch_data net tzOff nowEpoch heap self).2.2
       = _fetch_data tzOff nowEpoch (some rawA)) := by
  constructor
  · simp [VisualCrossing.fetch_data, hb]
  · simp only [VisualCrossing.async_fetch_data]
    rw [ha]
    simp

/-- The concrete facade used to witness C10. -/
def c10Self : VisualCrossing :=
  { _api_key := "k", _latitude := "1", _longitude := "2", _days := 3,
    _language := "en", _api := 0, _json_data := none }

/-- C10 witness: an adapter returning an empty JSON object makes the
mapper raise a `KeyError`, yet the raw payload is already stored in
`_json_data`. -/
theorem C10_witness :
    (VisualCrossing.fetch_data (fun _ => .success (some (JVal.obj []))) 0 0 c10Self).1._json_data
      = some (JVal.obj []) ∧
    (VisualCrossing.fetch_data (fun _ => .success (some (JVal.obj []))) 0 0 c10Self).2
      = .error (.keyError "currentConditions") := by
  have h := C10_raw_retained (fun _ => .success (some (JVal.obj [])))
    (fun _ => .response 200 (some (JVal.obj []))) 0 0 c10Self [⟨none⟩]
    (some (JVal.obj [])) (JVal.obj []) rfl rfl
  refine ⟨h.1.1, ?_⟩
  rw [h.1.2.2.2.2.2.2.2]
  rfl
